import Mathlib

/-!
Verification of the Phone Number Global Inspector (src/main.py).

The program is a linear enrichment pipeline over third-party libraries
(phonenumbers, pytz, countryinfo, geopy, qrcode, folium).  The embedding
models every third-party call as a field of an oracle structure `Env`, and
translates the program's own control flow — dictionary construction,
exception handling, truthiness checks, string formatting — faithfully from
the source.  The result dictionary is an insertion-ordered association
list; Python `None` values are modelled by `PyVal.vNone`; geographic
coordinates are modelled as exact rational numbers (every IEEE double is
an exact rational with terminating decimal expansion).
-/

namespace PhoneInspector

/-- Value stored in the Python result dictionary: a string, or Python None
(the countryinfo fields capital and region are inserted unconverted, so a
missing key stores None). -/
inductive PyVal where
  | strV (s : String)
  | vNone
deriving DecidableEq

/-- The phonenumbers.phonenumberutil.PhoneNumberType enumeration. -/
inductive PhoneNumberType where
  | FIXED_LINE
  | MOBILE
  | FIXED_LINE_OR_MOBILE
  | TOLL_FREE
  | PREMIUM_RATE
  | SHARED_COST
  | VOIP
  | PERSONAL_NUMBER
  | PAGER
  | UAN
  | VOICEMAIL
  | UNKNOWN
deriving DecidableEq

/-- The dictionary returned by CountryInfo(code).info(), restricted to the
keys the program reads.  A `none` field models that key being absent from
the dictionary (Python dict.get then returns None). -/
structure CountryData where
  name : Option String
  capital : Option String
  currencies : Option (List String)
  region : Option String
  borders : Option (List String)
deriving DecidableEq

/-- Outcome of geolocator.geocode inside get_coordinates: a location with
latitude/longitude, no match (Python None), or a raised GeocoderTimedOut /
GeocoderUnavailable exception. -/
inductive GeoOutcome where
  | found (lat lon : ℚ)
  | noMatch
  | unavailable
deriving DecidableEq

/-- Oracle for every third-party call the program makes.  A parsed phone
number object is identified by a natural number.  `parse` returns none when
phonenumbers.parse raises NumberParseException; `local_time_str` returns
none when pytz.timezone raises UnknownTimeZoneError, and otherwise the
strftime rendering of the current time in that zone; `country_info` returns
none when CountryInfo(code).info() raises KeyError. -/
structure Env where
  parse : String → Option Nat
  is_valid_number : Nat → Bool
  format_E164 : Nat → String
  format_international : Nat → String
  format_national : Nat → String
  number_type : Nat → PhoneNumberType
  description_for_number : Nat → String
  name_for_number : Nat → String
  time_zones_for_number : Nat → List String
  local_time_str : String → Option String
  region_code_for_number : Nat → String
  country_info : String → Option CountryData
  geocode : String → GeoOutcome

/-- The insertion-ordered Python result dictionary.  Every record the
program builds has pairwise distinct keys, so an association list with
first-match lookup coincides with a Python dict. -/
abbrev Record := List (String × PyVal)

/-- Python dict lookup. -/
def dictGet (r : Record) (k : String) : Option PyVal :=
  match r with
  | [] => none
  | e :: rest => if e.1 = k then some e.2 else dictGet rest k

/-- Python `s or d` on strings: the empty string is falsy. -/
def pyOr (s d : String) : String := if s = "" then d else s

/-- Python f-string interpolation of a string-or-None value (None prints as
"None"). -/
def pyOptStr : Option String → String
  | some s => s
  | none => "None"

/-- Store a Python value that is either a string or None. -/
def optV : Option String → PyVal
  | some s => PyVal.strV s
  | none => PyVal.vNone

/-- Python str() of a dictionary value. -/
def pyStr : PyVal → String
  | PyVal.strV s => s
  | PyVal.vNone => "None"

/-- Python f-string interpolation of dict.get(k): the value if the key is
present, "None" otherwise. -/
def pyGetStr (r : Record) (k : String) : String :=
  match dictGet r k with
  | some v => pyStr v
  | none => "None"

/-- Python str.replace(str(c), "") — removes every occurrence of the
character c. -/
def pyRemoveAll (s : String) (c : Char) : String :=
  ⟨s.data.filter (fun a => a != c)⟩

/-- Decimal digit character (0 ≤ d ≤ 9 in every use). -/
def digChar (d : Nat) : Char := Char.ofNat (48 + d)

/-- Test for an ASCII decimal digit. -/
def isDigitChar (c : Char) : Bool := 48 ≤ c.toNat && c.toNat ≤ 57

/-- Numeric value of an ASCII decimal digit. -/
def charDigit (c : Char) : Nat := c.toNat - 48

/-- Little-endian decimal digit characters of n; any fuel ≥ n is enough. -/
def natDigitsAux : Nat → Nat → List Char
  | 0, _ => []
  | _ + 1, 0 => []
  | fuel + 1, n + 1 => digChar ((n + 1) % 10) :: natDigitsAux fuel ((n + 1) / 10)

/-- Decimal representation of a natural number (Python str on int). -/
def decRepr (n : Nat) : String :=
  if n = 0 then "0" else ⟨(natDigitsAux n n).reverse⟩

/-- The low k decimal digits of n, zero padded to exactly k characters. -/
def padDigits : Nat → Nat → List Char
  | 0, _ => []
  | k + 1, n => padDigits k (n / 10) ++ [digChar (n % 10)]

/-- Render m ten-thousandths as a decimal string with exactly four fraction
digits. -/
def natFix4 (m : Nat) : String :=
  decRepr (m / 10000) ++ "." ++ ⟨padDigits 4 (m % 10000)⟩

/-- Round a rational to the nearest integer, ties to even (the rounding
used by Python's fixed-point float formatting). -/
def rhe (x : ℚ) : ℤ :=
  if Int.fract x < 1 / 2 then ⌊x⌋
  else if 1 / 2 < Int.fract x then ⌊x⌋ + 1
  else if 2 ∣ ⌊x⌋ then ⌊x⌋ else ⌊x⌋ + 1

/-- Python format(x, ".4f"): fixed point with four fraction digits, round
half to even, sign taken from the input value. -/
def formatFix4 (q : ℚ) : String :=
  if q < 0 then "-" ++ natFix4 (rhe (10000 * -q)).toNat
  else natFix4 (rhe (10000 * q)).toNat

/-- The value obtained by rounding q to four decimal fraction digits. -/
def roundQ4 (q : ℚ) : ℚ := ((rhe (10000 * q) : ℤ) : ℚ) / 10000

/-- Multiplicity of p in n (fuel-based; fuel ≥ n suffices). -/
def pMultAux : Nat → Nat → Nat → Nat
  | 0, _, _ => 0
  | fuel + 1, p, n => if 2 ≤ p ∧ p ∣ n ∧ n ≠ 0 then pMultAux fuel p (n / p) + 1 else 0

/-- Multiplicity of p in n. -/
def pMult (p n : Nat) : Nat := pMultAux n p n

/-- Decimal rendering of a rational with terminating decimal expansion;
models the Python f-string interpolation str(x) of a coordinate (every
binary floating-point value has a terminating decimal expansion). -/
def decStrQ (q : ℚ) : String :=
  let sgn := if q < 0 then "-" else ""
  let n := q.num.natAbs
  let d := q.den
  let k := max (pMult 2 d) (pMult 5 d)
  let scaled := n * 10 ^ k / d
  if k = 0 then sgn ++ decRepr scaled ++ ".0"
  else sgn ++ decRepr (scaled / 10 ^ k) ++ "." ++ ⟨padDigits k (scaled % 10 ^ k)⟩

/-- One step of decimal accumulation while parsing digits left to right. -/
def parseStep (a : Nat) (c : Char) : Nat := a * 10 + charDigit c

/-- Parse a nonempty all-digit character list as a natural number. -/
def parseNatOpt (l : List Char) : Option Nat :=
  if l ≠ [] ∧ l.all isDigitChar then some (l.foldl parseStep 0) else none

/-- Split a character list at its first dot. -/
def splitAtDot : List Char → List Char × Option (List Char)
  | [] => ([], none)
  | c :: rest =>
    if c = '.' then ([], some rest)
    else
      let p := splitAtDot rest
      (c :: p.1, p.2)

/-- Parse an unsigned decimal numeral, with an optional fraction part. -/
def parseUnsigned (cs : List Char) : Option ℚ :=
  match splitAtDot cs with
  | (ip, none) => (parseNatOpt ip).map (fun a => (a : ℚ))
  | (ip, some fp) =>
    match parseNatOpt ip, parseNatOpt fp with
    | some a, some b => some ((a : ℚ) + (b : ℚ) / (10 : ℚ) ^ fp.length)
    | _, _ => none

/-- Parse an optionally negated decimal numeral. -/
def parseDecChars : List Char → Option ℚ
  | [] => none
  | c :: rest =>
    if c = '-' then (parseUnsigned rest).map (fun q => -q)
    else parseUnsigned (c :: rest)

/-- Python float(s) on the decimal strings this program produces. -/
def parseDec (s : String) : Option ℚ := parseDecChars s.data

/-- The static NUMBER_TYPE_MAP table of main.py. -/
def NUMBER_TYPE_MAP : List (PhoneNumberType × String) :=
  [(PhoneNumberType.FIXED_LINE, "Fixed Line"),
   (PhoneNumberType.MOBILE, "Mobile"),
   (PhoneNumberType.TOLL_FREE, "Toll-Free"),
   (PhoneNumberType.PREMIUM_RATE, "Premium Rate"),
   (PhoneNumberType.UNKNOWN, "Unknown")]

/-- Python dict.get(k, d) on the static type table. -/
def mapGetD (m : List (PhoneNumberType × String)) (k : PhoneNumberType) (d : String) : String :=
  match m with
  | [] => d
  | e :: rest => if e.1 = k then e.2 else mapGetD rest k d

/-- get_coordinates of main.py: the one-second courtesy sleep has no
observable effect in the model; both the no-match result (None) and a
caught GeocoderTimedOut / GeocoderUnavailable exception yield None. -/
def get_coordinates (env : Env) (location_name : String) : Option (ℚ × ℚ) :=
  match env.geocode location_name with
  | GeoOutcome.found lat lon => some (lat, lon)
  | GeoOutcome.noMatch => none
  | GeoOutcome.unavailable => none

/-- The six entries of the initial info dictionary of get_phone_info. -/
def baseInfo (env : Env) (n : Nat) : Record :=
  [("E.164 Format", PyVal.strV (env.format_E164 n)),
   ("International Format", PyVal.strV (env.format_international n)),
   ("National Format", PyVal.strV (pyOr (env.format_national n) "N/A")),
   ("Number Type", PyVal.strV (mapGetD NUMBER_TYPE_MAP (env.number_type n) "Other")),
   ("Area Code Location", PyVal.strV (pyOr (env.description_for_number n) "N/A")),
   ("Mobile Carrier", PyVal.strV (pyOr (env.name_for_number n) "N/A"))]

/-- Timezone enrichment of get_phone_info: when the timezone list is
nonempty, the first identifier is resolved; an UnknownTimeZoneError stores
the literal fallback string. -/
def tzEntries (env : Env) (n : Nat) : Record :=
  match env.time_zones_for_number n with
  | [] => []
  | tz :: _ =>
    match env.local_time_str tz with
    | some t => [("Current Local Time", PyVal.strV t)]
    | none => [("Current Local Time", PyVal.strV "Invalid timezone data.")]

/-- Python `", ".join(borders) if borders else "None"`. -/
def bordersStr : Option (List String) → String
  | some (b :: bs) => String.intercalate ", " (b :: bs)
  | _ => "None"

/-- Country-information block of get_phone_info.  An `error` result models
the TypeError raised by subscripting None when the currencies key is
missing from the country dictionary: that exception is not caught by the
inner `except (KeyError, IndexError)` handler and escapes to the
function-level catch-all.  A KeyError from info() (country_info = none) or
an IndexError from an empty currency list is caught and stores the single
fallback entry; the entries assigned before the IndexError persist. -/
def countryEntries (env : Env) (code : String) : Except String Record :=
  if code = "" then Except.ok []
  else
    match env.country_info code with
    | none => Except.ok [("Country Info", PyVal.strV "Could not retrieve.")]
    | some cd =>
      match cd.currencies with
      | none => Except.error "\x27NoneType\x27 object is not subscriptable"
      | some [] =>
        Except.ok
          [("Country", PyVal.strV (pyOptStr cd.name ++ " (" ++ code ++ ")")),
           ("Capital City", optV cd.capital),
           ("Country Info", PyVal.strV "Could not retrieve.")]
      | some (c :: _) =>
        Except.ok
          [("Country", PyVal.strV (pyOptStr cd.name ++ " (" ++ code ++ ")")),
           ("Capital City", optV cd.capital),
           ("Currency", PyVal.strV c),
           ("Continent / Region", optV cd.region),
           ("Bordering Countries", PyVal.strV (bordersStr cd.borders))]

/-- Geolocation enrichment of get_phone_info: only runs for a nonempty
area description; a successful geocode adds latitude and longitude
formatted to four fraction digits plus a maps link interpolating the
unrounded coordinates. -/
def geoEntries (env : Env) (location_str : String) : Record :=
  if location_str = "" then []
  else
    match get_coordinates env location_str with
    | some (lat, lon) =>
      [("Latitude", PyVal.strV (formatFix4 lat)),
       ("Longitude", PyVal.strV (formatFix4 lon)),
       ("Google Maps Link",
        PyVal.strV ("https://maps.google.com/maps?q=" ++ decStrQ lat ++ "," ++ decStrQ lon))]
    | none => []

/-- The WhatsApp utility-link entry: the E.164 format with every "+"
removed (str.replace), interpolated into the fixed template. -/
def waEntry (env : Env) (n : Nat) : String × PyVal :=
  ("WhatsApp Link", PyVal.strV ("https://wa.me/" ++ pyRemoveAll (env.format_E164 n) '+'))

/-- get_phone_info of main.py.  `Except.error` is the returned error
string (Python returns dict | str); the TypeError escaping the country
block is rendered by the function-level `except Exception` handler. -/
def get_phone_info (env : Env) (s : String) : Except String Record :=
  match env.parse s with
  | none => Except.error ("❌ Error: Failed to parse \x27" ++ s ++ "\x27. Please check the format.")
  | some n =>
    if env.is_valid_number n then
      match countryEntries env (env.region_code_for_number n) with
      | Except.error msg => Except.error ("❌ An unexpected error occurred: " ++ msg)
      | Except.ok ce =>
        Except.ok (baseInfo env n ++ (tzEntries env n ++ (ce ++
          (geoEntries env (env.description_for_number n) ++ [waEntry env n]))))
    else Except.error "❌ Error: Invalid phone number format."

/-- The single PNG file written by create_qr_code. -/
structure QrWrite where
  filename : String
  content : String
deriving DecidableEq

/-- create_qr_code of main.py: returns without writing when the E.164
entry is absent, None, or the empty string (Python truthiness of
`not e164_format`); otherwise writes one vCard QR image. -/
def create_qr_code (info : Record) : Option QrWrite :=
  match dictGet info "E.164 Format" with
  | some (PyVal.strV e) =>
    if e = "" then none
    else some
      { filename := "contact_" ++ e ++ ".png",
        content := "BEGIN:VCARD\nVERSION:3.0\nFN:" ++ e ++ "\nTEL;TYPE=CELL:" ++ e ++ "\nEND:VCARD" }
  | _ => none

/-- The single HTML file written by create_location_map. -/
structure MapWrite where
  filename : String
  center : ℚ × ℚ
  popup : String
deriving DecidableEq

/-- Python float() of a dictionary value; None models a raised exception. -/
def pyFloatVal : PyVal → Option ℚ
  | PyVal.strV s => parseDec s
  | PyVal.vNone => none

/-- create_location_map of main.py: returns without writing when either
coordinate key is absent; otherwise re-parses the formatted coordinate
strings with float() and centres the map there.  An `error` result models
an uncaught exception from float(), which never occurs on records built by
get_phone_info. -/
def create_location_map (info : Record) : Except String (Option MapWrite) :=
  match dictGet info "Latitude", dictGet info "Longitude" with
  | some latV, some lonV =>
    match pyFloatVal latV, pyFloatVal lonV with
    | some lat, some lon =>
      Except.ok (some
        { filename := "map_" ++ pyGetStr info "E.164 Format" ++ ".html",
          center := (lat, lon),
          popup := "<b>" ++ pyGetStr info "Area Code Location" ++
            "</b><br><i>Estimated location for " ++ pyGetStr info "International Format" ++ "</i>" })
    | _, _ => Except.error "float conversion failed"
  | _, _ => Except.ok none

/-- Filenames written when both artifact generators are invoked on a
record, in the order display_results invokes them (map first, QR second);
an exception escaping the map generator stops the run before the QR
generator is invoked. -/
def generatedFiles (info : Record) : List String :=
  match create_location_map info with
  | Except.error _ => []
  | Except.ok mw =>
    (match mw with
     | some w => [w.filename]
     | none => []) ++
    (match create_qr_code info with
     | some w => [w.filename]
     | none => [])

/-- Terminal outcome of display_results. -/
inductive DisplayResult where
  | errorPanel (msg : String)
  | table (rows : List (String × String)) (mw : Option MapWrite) (qw : Option QrWrite)
  | crash
deriving DecidableEq

/-- display_results of main.py: a string renders an error panel and
generates nothing; a dict renders every entry as a table row in insertion
order and then invokes both artifact generators. -/
def display_results (res : Except String Record) : DisplayResult :=
  match res with
  | Except.error msg => DisplayResult.errorPanel msg
  | Except.ok r =>
    match create_location_map r with
    | Except.error _ => DisplayResult.crash
    | Except.ok mw => DisplayResult.table (r.map (fun e => (e.1, pyStr e.2))) mw (create_qr_code r)

/-- Artifact files written by a display outcome. -/
def displayFiles : DisplayResult → List String
  | DisplayResult.errorPanel _ => []
  | DisplayResult.crash => []
  | DisplayResult.table _ mw qw =>
    (match mw with
     | some w => [w.filename]
     | none => []) ++
    (match qw with
     | some w => [w.filename]
     | none => [])

/-- The dictionary keys of the country-metadata group. -/
def countryKeys : List String :=
  ["Country", "Capital City", "Currency", "Continent / Region", "Bordering Countries", "Country Info"]

/-- The dictionary keys of the geolocation group. -/
def geoKeys : List String := ["Latitude", "Longitude", "Google Maps Link"]

/-- The entries of a record outside the country-metadata group. -/
def outsideCountry (r : Record) : Record :=
  r.filter (fun e => !(countryKeys.contains e.1))

/-- The entries of a record outside the geolocation group. -/
def outsideGeo (r : Record) : Record :=
  r.filter (fun e => !(geoKeys.contains e.1))

/-- Country dictionary used by the concrete test environment. -/
def usCountryData : CountryData :=
  { name := some "United States",
    capital := some "Washington, D.C.",
    currencies := some ["USD"],
    region := some "Americas",
    borders := some ["CAN", "MEX"] }

/-- Concrete environment modelling the third-party libraries on the US
mobile number +14155552671 of the end-to-end scenario. -/
def usEnv : Env :=
  { parse := fun s => if s = "+14155552671" then some 1 else none,
    is_valid_number := fun n => n == 1,
    format_E164 := fun _ => "+14155552671",
    format_international := fun _ => "+1 415-555-2671",
    format_national := fun _ => "(415) 555-2671",
    number_type := fun _ => PhoneNumberType.MOBILE,
    description_for_number := fun _ => "San Francisco, CA",
    name_for_number := fun _ => "",
    time_zones_for_number := fun _ => ["America/Los_Angeles"],
    local_time_str := fun tz =>
      if tz = "America/Los_Angeles" then some "Sunday, 2026-10-11, 09:00:00 PDT-0700" else none,
    region_code_for_number := fun _ => "US",
    country_info := fun c => if c = "US" then some usCountryData else none,
    geocode := fun loc =>
      if loc = "San Francisco, CA" then GeoOutcome.found (3777493 / 100000) (-12241942 / 100000)
      else GeoOutcome.noMatch }

/-- The record get_phone_info builds in the environment usEnv. -/
def usRecord : Record :=
  [("E.164 Format", PyVal.strV "+14155552671"),
   ("International Format", PyVal.strV "+1 415-555-2671"),
   ("National Format", PyVal.strV "(415) 555-2671"),
   ("Number Type", PyVal.strV "Mobile"),
   ("Area Code Location", PyVal.strV "San Francisco, CA"),
   ("Mobile Carrier", PyVal.strV "N/A"),
   ("Current Local Time", PyVal.strV "Sunday, 2026-10-11, 09:00:00 PDT-0700"),
   ("Country", PyVal.strV "United States (US)"),
   ("Capital City", PyVal.strV "Washington, D.C."),
   ("Currency", PyVal.strV "USD"),
   ("Continent / Region", PyVal.strV "Americas"),
   ("Bordering Countries", PyVal.strV "CAN, MEX"),
   ("Latitude", PyVal.strV "37.7749"),
   ("Longitude", PyVal.strV "-122.4194"),
   ("Google Maps Link", PyVal.strV "https://maps.google.com/maps?q=37.77493,-122.41942"),
   ("WhatsApp Link", PyVal.strV "https://wa.me/14155552671")]

/-- Country dictionary with the currencies key missing (dict.get returns
None, and subscripting it raises TypeError). -/
def cdMissingCurrencyKey : CountryData :=
  { name := some "United States",
    capital := some "Washington, D.C.",
    currencies := none,
    region := some "Americas",
    borders := some ["CAN", "MEX"] }

/-- Environment in which the country dictionary lacks the currencies key. -/
def envMissingCurrency : Env :=
  { usEnv with country_info := fun c => if c = "US" then some cdMissingCurrencyKey else none }

/-- Country dictionary whose currency list is empty (subscripting raises
IndexError, which the inner handler catches). -/
def cdEmptyCurrency : CountryData :=
  { name := some "United States",
    capital := some "Washington, D.C.",
    currencies := some [],
    region := some "Americas",
    borders := some ["CAN", "MEX"] }

/-- Environment in which the country dictionary has an empty currency
list. -/
def envEmptyCurrency : Env :=
  { usEnv with country_info := fun c => if c = "US" then some cdEmptyCurrency else none }

/-- Environment whose geocoder never finds a match. -/
def envNoGeo : Env := { usEnv with geocode := fun _ => GeoOutcome.noMatch }

/-- The record get_phone_info builds in envNoGeo: identical to usRecord
except that the three geolocation entries are absent. -/
def usRecordNoGeo : Record :=
  [("E.164 Format", PyVal.strV "+14155552671"),
   ("International Format", PyVal.strV "+1 415-555-2671"),
   ("National Format", PyVal.strV "(415) 555-2671"),
   ("Number Type", PyVal.strV "Mobile"),
   ("Area Code Location", PyVal.strV "San Francisco, CA"),
   ("Mobile Carrier", PyVal.strV "N/A"),
   ("Current Local Time", PyVal.strV "Sunday, 2026-10-11, 09:00:00 PDT-0700"),
   ("Country", PyVal.strV "United States (US)"),
   ("Capital City", PyVal.strV "Washington, D.C."),
   ("Currency", PyVal.strV "USD"),
   ("Continent / Region", PyVal.strV "Americas"),
   ("Bordering Countries", PyVal.strV "CAN, MEX"),
   ("WhatsApp Link", PyVal.strV "https://wa.me/14155552671")]

/-- A minimal record holding only a nonempty E.164 entry. -/
def minimalRecord : Record := [("E.164 Format", PyVal.strV "+14155552671")]

/-- A record whose E.164 entry is present but empty, hence falsy in
Python. -/
def emptyE164Record : Record := [("E.164 Format", PyVal.strV "")]

theorem rhe_usLat : rhe ((10000 : ℚ) * (3777493 / 100000)) = 377749 := by
  have h1 : (10000 : ℚ) * (3777493 / 100000) = 3777493 / 10 := by norm_num
  have hf : ⌊(3777493 / 10 : ℚ)⌋ = 377749 := by norm_num
  have hfr : Int.fract (3777493 / 10 : ℚ) = 3 / 10 := by
    rw [Int.fract, hf]; norm_num
  rw [h1]
  unfold rhe
  rw [hfr, hf]
  norm_num

theorem rhe_usLon : rhe ((10000 : ℚ) * -(-12241942 / 100000)) = 1224194 := by
  have h1 : (10000 : ℚ) * -(-12241942 / 100000) = 6120971 / 5 := by norm_num
  have hf : ⌊(6120971 / 5 : ℚ)⌋ = 1224194 := by norm_num
  have hfr : Int.fract (6120971 / 5 : ℚ) = 1 / 5 := by
    rw [Int.fract, hf]; norm_num
  rw [h1]
  unfold rhe
  rw [hfr, hf]
  norm_num

theorem fmt_usLat : formatFix4 (3777493 / 100000 : ℚ) = "37.7749" := by
  unfold formatFix4
  rw [if_neg (by norm_num : ¬((3777493 / 100000 : ℚ) < 0)), rhe_usLat]
  rfl

theorem fmt_usLon : formatFix4 (-12241942 / 100000 : ℚ) = "-122.4194" := by
  unfold formatFix4
  rw [if_pos (by norm_num : (-12241942 / 100000 : ℚ) < 0), rhe_usLon]
  rfl

theorem decStr_usLat : decStrQ (3777493 / 100000 : ℚ) = "37.77493" := by
  rw [show (3777493 / 100000 : ℚ) = Rat.mk' 3777493 100000 (by decide) (by decide) by
    rw [Rat.mk'_eq_divInt, Rat.divInt_eq_div]; norm_num]
  decide

theorem decStr_usLon : decStrQ (-12241942 / 100000 : ℚ) = "-122.41942" := by
  rw [show (-12241942 / 100000 : ℚ) = Rat.mk' (-6120971) 50000 (by decide) (by decide) by
    rw [Rat.mk'_eq_divInt, Rat.divInt_eq_div]; norm_num]
  decide

theorem geo_usEval : geoEntries usEnv "San Francisco, CA" =
    [("Latitude", PyVal.strV "37.7749"),
     ("Longitude", PyVal.strV "-122.4194"),
     ("Google Maps Link", PyVal.strV "https://maps.google.com/maps?q=37.77493,-122.41942")] := by
  show [("Latitude", PyVal.strV (formatFix4 (3777493 / 100000 : ℚ))),
        ("Longitude", PyVal.strV (formatFix4 (-12241942 / 100000 : ℚ))),
        ("Google Maps Link", PyVal.strV ("https://maps.google.com/maps?q=" ++
          decStrQ (3777493 / 100000 : ℚ) ++ "," ++ decStrQ (-12241942 / 100000 : ℚ)))] = _
  rw [fmt_usLat, fmt_usLon, decStr_usLat, decStr_usLon]
  rfl

theorem usRun : get_phone_info usEnv "+14155552671" = Except.ok usRecord := by
  have h : get_phone_info usEnv "+14155552671" =
      Except.ok (baseInfo usEnv 1 ++ tzEntries usEnv 1 ++
        [("Country", PyVal.strV "United States (US)"),
         ("Capital City", PyVal.strV "Washington, D.C."),
         ("Currency", PyVal.strV "USD"),
         ("Continent / Region", PyVal.strV "Americas"),
         ("Bordering Countries", PyVal.strV "CAN, MEX")] ++
        geoEntries usEnv "San Francisco, CA" ++ [waEntry usEnv 1]) := rfl
  rw [h, geo_usEval]
  rfl

theorem usRunNoGeo : get_phone_info envNoGeo "+14155552671" = Except.ok usRecordNoGeo := rfl

theorem dictGet_append_none (r1 r2 : Record) (k : String) (h : dictGet r1 k = none) :
    dictGet (r1 ++ r2) k = dictGet r2 k := by
  induction r1 with
  | nil => simp
  | cons e rest ih =>
    by_cases he : e.1 = k
    · simp [dictGet, he] at h
    · simp only [List.cons_append, dictGet, if_neg he] at h ⊢
      exact ih h

theorem dictGet_append_some (r1 r2 : Record) (k : String) (v : PyVal)
    (h : dictGet r1 k = some v) : dictGet (r1 ++ r2) k = some v := by
  induction r1 with
  | nil => simp [dictGet] at h
  | cons e rest ih =>
    by_cases he : e.1 = k
    · simp only [dictGet, if_pos he] at h
      simp only [List.cons_append, dictGet, if_pos he]
      exact h
    · simp only [dictGet, if_neg he] at h
      simp only [List.cons_append, dictGet, if_neg he]
      exact ih h

theorem dictGet_none_of_keys (r : Record) (K : List String) (k : String)
    (hr : ∀ e ∈ r, e.1 ∈ K) (hk : k ∉ K) : dictGet r k = none := by
  induction r with
  | nil => rfl
  | cons e rest ih =>
    have h1 : e.1 ∈ K := hr e (List.mem_cons_self e rest)
    have hne : e.1 ≠ k := fun h => hk (h ▸ h1)
    simp only [dictGet, if_neg hne]
    exact ih (fun x hx => hr x (List.mem_cons_of_mem e hx))

theorem dictGet_tzEntries_ne (env : Env) (n : Nat) (k : String)
    (hk : k ≠ "Current Local Time") : dictGet (tzEntries env n) k = none := by
  unfold tzEntries
  cases env.time_zones_for_number n with
  | nil => rfl
  | cons tz rest =>
    cases h : env.local_time_str tz with
    | none => simp [h, dictGet, Ne.symm hk]
    | some t => simp [h, dictGet, Ne.symm hk]

theorem dictGet_geoEntries_ne (env : Env) (loc : String) (k : String)
    (h1 : k ≠ "Latitude") (h2 : k ≠ "Longitude") (h3 : k ≠ "Google Maps Link") :
    dictGet (geoEntries env loc) k = none := by
  unfold geoEntries
  by_cases hl : loc = ""
  · rw [if_pos hl]; rfl
  · rw [if_neg hl]
    cases get_coordinates env loc with
    | none => rfl
    | some p =>
      obtain ⟨lat, lon⟩ := p
      simp [dictGet, Ne.symm h1, Ne.symm h2, Ne.symm h3]

theorem countryEntries_keys (env : Env) (c : String) (ce : Record)
    (hce : countryEntries env c = Except.ok ce) :
    ∀ e ∈ ce, e.1 ∈ countryKeys := by
  unfold countryEntries at hce
  split at hce
  · injection hce with h
    subst h
    intro e he
    simp at he
  · split at hce
    · injection hce with h
      subst h
      intro e he
      simp only [List.mem_singleton] at he
      subst he
      simp [countryKeys]
    · split at hce
      · exact absurd hce (by simp)
      · injection hce with h
        subst h
        intro e he
        simp only [List.mem_cons, List.not_mem_nil, or_false] at he
        rcases he with rfl | rfl | rfl <;> simp [countryKeys]
      · injection hce with h
        subst h
        intro e he
        simp only [List.mem_cons, List.not_mem_nil, or_false] at he
        rcases he with rfl | rfl | rfl | rfl | rfl <;> simp [countryKeys]

theorem dictGet_countryEntries_ne (env : Env) (c : String) (ce : Record) (k : String)
    (hce : countryEntries env c = Except.ok ce) (hk : k ∉ countryKeys) :
    dictGet ce k = none :=
  dictGet_none_of_keys ce countryKeys k (countryEntries_keys env c ce hce) hk

theorem get_phone_info_ok_mk (env : Env) (s : String) (n : Nat) (ce : Record)
    (hp : env.parse s = some n) (hv : env.is_valid_number n = true)
    (hce : countryEntries env (env.region_code_for_number n) = Except.ok ce) :
    get_phone_info env s = Except.ok (baseInfo env n ++ (tzEntries env n ++ (ce ++
      (geoEntries env (env.description_for_number n) ++ [waEntry env n])))) := by
  unfold get_phone_info
  rw [hp]
  simp only [hv, if_true, hce]

theorem get_phone_info_ok_inv (env : Env) (s : String) (r : Record)
    (h : get_phone_info env s = Except.ok r) :
    ∃ n ce, env.parse s = some n ∧ env.is_valid_number n = true ∧
      countryEntries env (env.region_code_for_number n) = Except.ok ce ∧
      r = baseInfo env n ++ (tzEntries env n ++ (ce ++
        (geoEntries env (env.description_for_number n) ++ [waEntry env n]))) := by
  unfold get_phone_info at h
  split at h
  · exact absurd h (by simp)
  · rename_i n hp
    split at h
    · rename_i hv
      split at h
      · exact absurd h (by simp)
      · rename_i ce hce
        injection h with h2
        exact ⟨n, ce, hp, by simpa using hv, hce, h2.symm⟩
    · exact absurd h (by simp)

theorem digChar_isDigit (d : Nat) (h : d < 10) : isDigitChar (digChar d) = true := by
  interval_cases d <;> decide

theorem digChar_charDigit (d : Nat) (h : d < 10) : charDigit (digChar d) = d := by
  interval_cases d <;> decide

theorem digChar_ne_dot (d : Nat) (h : d < 10) : digChar d ≠ '.' := by
  interval_cases d <;> decide

theorem digChar_ne_dash (d : Nat) (h : d < 10) : digChar d ≠ '-' := by
  interval_cases d <;> decide

theorem natDigitsAux_mem : ∀ (f n : Nat) (c : Char),
    c ∈ natDigitsAux f n → ∃ d, d < 10 ∧ c = digChar d := by
  intro f
  induction f with
  | zero => intro n c h; simp [natDigitsAux] at h
  | succ f ih =>
    intro n c h
    rcases n with _ | m
    · simp [natDigitsAux] at h
    · simp only [natDigitsAux, List.mem_cons] at h
      rcases h with rfl | h
      · exact ⟨(m + 1) % 10, Nat.mod_lt _ (by norm_num), rfl⟩
      · exact ih _ c h

theorem natDigitsAux_foldl : ∀ (f n acc : Nat), n ≤ f →
    List.foldl parseStep acc (natDigitsAux f n).reverse =
      acc * 10 ^ (natDigitsAux f n).length + n := by
  intro f
  induction f with
  | zero =>
    intro n acc hn
    have : n = 0 := Nat.le_zero.mp hn
    subst this
    simp [natDigitsAux]
  | succ f ih =>
    intro n acc hn
    rcases n with _ | m
    · simp [natDigitsAux]
    · have hq : (m + 1) / 10 ≤ f := by
        have := Nat.div_lt_self (Nat.succ_pos m) (by norm_num : 1 < 10)
        omega
      simp only [natDigitsAux, List.reverse_cons, List.foldl_append, List.foldl_cons,
        List.foldl_nil, List.length_cons]
      rw [ih ((m + 1) / 10) acc hq]
      unfold parseStep
      rw [digChar_charDigit _ (Nat.mod_lt _ (by norm_num))]
      have hdm : 10 * ((m + 1) / 10) + (m + 1) % 10 = m + 1 := Nat.div_add_mod _ _
      calc (acc * 10 ^ (natDigitsAux f ((m + 1) / 10)).length + (m + 1) / 10) * 10 + (m + 1) % 10
          = acc * (10 ^ (natDigitsAux f ((m + 1) / 10)).length * 10) +
              (10 * ((m + 1) / 10) + (m + 1) % 10) := by ring
        _ = acc * 10 ^ ((natDigitsAux f ((m + 1) / 10)).length + 1) + (m + 1) := by
              rw [hdm, pow_succ]

theorem decRepr_ne_nil (n : Nat) : (decRepr n).data ≠ [] := by
  unfold decRepr
  by_cases h : n = 0
  · rw [if_pos h]; decide
  · rw [if_neg h]
    obtain ⟨m, rfl⟩ := Nat.exists_eq_succ_of_ne_zero h
    show (natDigitsAux (m + 1) (m + 1)).reverse ≠ []
    simp [natDigitsAux]

theorem decRepr_mem (n : Nat) : ∀ c ∈ (decRepr n).data, ∃ d, d < 10 ∧ c = digChar d := by
  unfold decRepr
  by_cases h : n = 0
  · rw [if_pos h]
    intro c hc
    simp only [show ("0" : String).data = ['0'] from rfl, List.mem_singleton] at hc
    exact ⟨0, by norm_num, by rw [hc]; rfl⟩
  · rw [if_neg h]
    obtain ⟨m, rfl⟩ := Nat.exists_eq_succ_of_ne_zero h
    intro c hc
    rw [show ((⟨(natDigitsAux (m + 1) (m + 1)).reverse⟩ : String)).data =
        (natDigitsAux (m + 1) (m + 1)).reverse from rfl, List.mem_reverse] at hc
    exact natDigitsAux_mem _ _ c hc

theorem parseNatOpt_decRepr (n : Nat) : parseNatOpt (decRepr n).data = some n := by
  have hne := decRepr_ne_nil n
  have hall : (decRepr n).data.all isDigitChar = true := by
    rw [List.all_eq_true]
    intro c hc
    obtain ⟨d, hd, rfl⟩ := decRepr_mem n c hc
    exact digChar_isDigit d hd
  unfold parseNatOpt
  rw [if_pos ⟨hne, hall⟩]
  congr 1
  by_cases h : n = 0
  · subst h; decide
  · obtain ⟨m, rfl⟩ := Nat.exists_eq_succ_of_ne_zero h
    show List.foldl parseStep 0 (natDigitsAux (m + 1) (m + 1)).reverse = m + 1
    rw [natDigitsAux_foldl (m + 1) (m + 1) 0 le_rfl]
    simp

theorem padDigits_length : ∀ (k m : Nat), (padDigits k m).length = k := by
  intro k
  induction k with
  | zero => intro m; rfl
  | succ k ih => intro m; simp [padDigits, ih]

theorem padDigits_mem : ∀ (k m : Nat) (c : Char),
    c ∈ padDigits k m → ∃ d, d < 10 ∧ c = digChar d := by
  intro k
  induction k with
  | zero => intro m c h; simp [padDigits] at h
  | succ k ih =>
    intro m c h
    simp only [padDigits, List.mem_append, List.mem_singleton] at h
    rcases h with h | rfl
    · exact ih _ c h
    · exact ⟨m % 10, Nat.mod_lt _ (by norm_num), rfl⟩

theorem padDigits_foldl : ∀ (k m acc : Nat),
    List.foldl parseStep acc (padDigits k m) = acc * 10 ^ k + m % 10 ^ k := by
  intro k
  induction k with
  | zero => intro m acc; simp [padDigits, Nat.mod_one]
  | succ k ih =>
    intro m acc
    simp only [padDigits, List.foldl_append, List.foldl_cons, List.foldl_nil]
    rw [ih (m / 10) acc]
    unfold parseStep
    rw [digChar_charDigit _ (Nat.mod_lt _ (by norm_num))]
    have hsplit : m % 10 ^ (k + 1) = m % 10 + 10 * (m / 10 % 10 ^ k) := by
      rw [pow_succ']
      exact Nat.mod_mul
    rw [hsplit, pow_succ]
    ring

theorem splitAtDot_append (l1 l2 : List Char) (h : '.' ∉ l1) :
    splitAtDot (l1 ++ '.' :: l2) = (l1, some l2) := by
  induction l1 with
  | nil => simp [splitAtDot]
  | cons c rest ih =>
    have hc : c ≠ '.' := fun hc => h (hc ▸ List.mem_cons_self c rest)
    have hrest : '.' ∉ rest := fun hr => h (List.mem_cons_of_mem c hr)
    simp only [List.cons_append, splitAtDot, if_neg hc]
    simp [ih hrest]

theorem strData_append (s t : String) : (s ++ t).data = s.data ++ t.data := rfl

theorem natFix4_data (m : Nat) :
    (natFix4 m).data = (decRepr (m / 10000)).data ++ '.' :: padDigits 4 (m % 10000) := by
  unfold natFix4
  rw [strData_append, strData_append]
  simp

theorem parseUnsigned_natFix4 (m : Nat) :
    parseUnsigned (natFix4 m).data = some ((m : ℚ) / 10000) := by
  have hdot : '.' ∉ (decRepr (m / 10000)).data := by
    intro hc
    obtain ⟨d, hd, he⟩ := decRepr_mem _ _ hc
    exact digChar_ne_dot d hd he.symm
  have hfpne : padDigits 4 (m % 10000) ≠ [] := by
    intro h
    have := padDigits_length 4 (m % 10000)
    rw [h] at this
    simp at this
  have hfpall : (padDigits 4 (m % 10000)).all isDigitChar = true := by
    rw [List.all_eq_true]
    intro c hc
    obtain ⟨d, hd, rfl⟩ := padDigits_mem 4 _ c hc
    exact digChar_isDigit d hd
  unfold parseUnsigned
  rw [natFix4_data, splitAtDot_append _ _ hdot]
  simp only [parseNatOpt_decRepr]
  unfold parseNatOpt
  rw [if_pos ⟨hfpne, hfpall⟩]
  rw [padDigits_foldl 4 (m % 10000) 0, padDigits_length 4 (m % 10000)]
  have key : (10000 : ℚ) * ((m / 10000 : Nat) : ℚ) + ((m % 10000 : Nat) : ℚ) = (m : ℚ) := by
    exact_mod_cast Nat.div_add_mod m 10000
  have hmod : 0 * 10 ^ 4 + m % 10000 % 10 ^ 4 = m % 10000 := by omega
  rw [hmod]
  have h4 : ((10 : ℚ) ^ 4) = 10000 := by norm_num
  rw [h4]
  field_simp
  linarith

theorem parseDec_natFix4 (m : Nat) : parseDec (natFix4 m) = some ((m : ℚ) / 10000) := by
  unfold parseDec
  rcases hd : (decRepr (m / 10000)).data with _ | ⟨c, cs⟩
  · exact absurd hd (decRepr_ne_nil _)
  · have hdata : (natFix4 m).data = c :: (cs ++ '.' :: padDigits 4 (m % 10000)) := by
      rw [natFix4_data, hd]
      simp
    have hc : c ≠ '-' := by
      have hmem : c ∈ (decRepr (m / 10000)).data := by
        rw [hd]; exact List.mem_cons_self c cs
      obtain ⟨d, hdd, rfl⟩ := decRepr_mem _ _ hmem
      exact digChar_ne_dash d hdd
    rw [hdata]
    simp only [parseDecChars]
    rw [if_neg hc, show c :: (cs ++ '.' :: padDigits 4 (m % 10000)) = (natFix4 m).data from hdata.symm]
    exact parseUnsigned_natFix4 m

theorem rhe_nonneg (x : ℚ) (h : 0 ≤ x) : 0 ≤ rhe x := by
  have hf : 0 ≤ ⌊x⌋ := Int.floor_nonneg.mpr h
  unfold rhe
  split_ifs <;> omega

theorem rhe_neg (x : ℚ) : rhe (-x) = -rhe x := by
  by_cases h0 : Int.fract x = 0
  · have hx : ((⌊x⌋ : ℤ) : ℚ) = x := by
      have h := Int.floor_add_fract x
      rw [h0, add_zero] at h
      exact h
    have h1 : ⌊-x⌋ = -⌊x⌋ := by
      conv_lhs => rw [← hx, ← Int.cast_neg]
      rw [Int.floor_intCast]
    have h2 : Int.fract (-x) = 0 := by
      conv_lhs => rw [← hx, ← Int.cast_neg]
      rw [Int.fract_intCast]
    unfold rhe
    rw [h0, h2, h1]
    norm_num
  · have hfr : Int.fract (-x) = 1 - Int.fract x := Int.fract_neg h0
    have hfl : ⌊-x⌋ = -⌊x⌋ - 1 := by
      have e1 : ((⌊-x⌋ : ℤ) : ℚ) = -x - Int.fract (-x) := by
        rw [Int.fract]; ring
      have e2 : ((⌊x⌋ : ℤ) : ℚ) = x - Int.fract x := by
        rw [Int.fract]; ring
      have e3 : ((⌊-x⌋ : ℤ) : ℚ) = -((⌊x⌋ : ℤ) : ℚ) - 1 := by
        rw [e1, e2, hfr]; ring
      exact_mod_cast e3
    have hb1 : 0 < Int.fract x :=
      lt_of_le_of_ne (Int.fract_nonneg x) (Ne.symm h0)
    have hb2 : Int.fract x < 1 := Int.fract_lt_one x
    unfold rhe
    rw [hfr, hfl]
    split_ifs <;> first | omega | (exfalso; linarith)

theorem parseDec_formatFix4 (q : ℚ) : parseDec (formatFix4 q) = some (roundQ4 q) := by
  unfold formatFix4 roundQ4
  by_cases hq : q < 0
  · rw [if_pos hq]
    have hm : 0 ≤ rhe (10000 * -q) :=
      rhe_nonneg _ (mul_nonneg (by norm_num) (by linarith))
    unfold parseDec
    rw [show ("-" ++ natFix4 (rhe (10000 * -q)).toNat).data =
      '-' :: (natFix4 (rhe (10000 * -q)).toNat).data from rfl]
    simp only [parseDecChars, if_true]
    have hp := parseUnsigned_natFix4 (rhe (10000 * -q)).toNat
    unfold parseDec at hp
    rw [hp]
    simp only [Option.map_some']
    congr 1
    have hneg : rhe (10000 * q) = -rhe (10000 * -q) := by
      rw [show (10000 : ℚ) * q = -(10000 * -q) by ring, rhe_neg]
    rw [hneg]
    have hcast : (((rhe (10000 * -q)).toNat : ℕ) : ℚ) = ((rhe (10000 * -q) : ℤ) : ℚ) := by
      exact_mod_cast Int.toNat_of_nonneg hm
    push_cast
    rw [hcast]
    ring
  · rw [if_neg hq]
    have hm : 0 ≤ rhe (10000 * q) :=
      rhe_nonneg _ (mul_nonneg (by norm_num) (by linarith))
    rw [parseDec_natFix4]
    congr 1
    rw [show (((rhe (10000 * q)).toNat : ℕ) : ℚ) = ((rhe (10000 * q) : ℤ) : ℚ) from by
      exact_mod_cast Int.toNat_of_nonneg hm]

theorem countryEntries_of_keyError (env : Env) (code : String)
    (hcode : code ≠ "") (hcd : env.country_info code = none) :
    countryEntries env code = Except.ok [("Country Info", PyVal.strV "Could not retrieve.")] := by
  unfold countryEntries
  rw [if_neg hcode, hcd]

theorem countryEntries_of_emptyCurrency (env : Env) (code : String)
    (nm cap reg : Option String) (bor : Option (List String))
    (hcode : code ≠ "")
    (hcd : env.country_info code = some ⟨nm, cap, some [], reg, bor⟩) :
    countryEntries env code = Except.ok
      [("Country", PyVal.strV (pyOptStr nm ++ " (" ++ code ++ ")")),
       ("Capital City", optV cap),
       ("Country Info", PyVal.strV "Could not retrieve.")] := by
  unfold countryEntries
  rw [if_neg hcode, hcd]

theorem countryEntries_of_currency (env : Env) (code : String)
    (nm cap reg : Option String) (c : String) (cs : List String) (bor : Option (List String))
    (hcode : code ≠ "")
    (hcd : env.country_info code = some ⟨nm, cap, some (c :: cs), reg, bor⟩) :
    countryEntries env code = Except.ok
      [("Country", PyVal.strV (pyOptStr nm ++ " (" ++ code ++ ")")),
       ("Capital City", optV cap),
       ("Currency", PyVal.strV c),
       ("Continent / Region", optV reg),
       ("Bordering Countries", PyVal.strV (bordersStr bor))] := by
  unfold countryEntries
  rw [if_neg hcode, hcd]

theorem countryEntries_of_missingCurrencyKey (env : Env) (code : String)
    (nm cap reg : Option String) (bor : Option (List String))
    (hcode : code ≠ "")
    (hcd : env.country_info code = some ⟨nm, cap, none, reg, bor⟩) :
    countryEntries env code = Except.error "\x27NoneType\x27 object is not subscriptable" := by
  unfold countryEntries
  rw [if_neg hcode, hcd]

theorem geoEntries_cases (env : Env) (loc : String) :
    geoEntries env loc = [] ∨
    ∃ lat lon, get_coordinates env loc = some (lat, lon) ∧ loc ≠ "" ∧
      geoEntries env loc =
        [("Latitude", PyVal.strV (formatFix4 lat)),
         ("Longitude", PyVal.strV (formatFix4 lon)),
         ("Google Maps Link",
          PyVal.strV ("https://maps.google.com/maps?q=" ++ decStrQ lat ++ "," ++ decStrQ lon))] := by
  unfold geoEntries
  by_cases hl : loc = ""
  · rw [if_pos hl]
    exact Or.inl rfl
  · rw [if_neg hl]
    cases hco : get_coordinates env loc with
    | none => exact Or.inl rfl
    | some p =>
      obtain ⟨lat, lon⟩ := p
      exact Or.inr ⟨lat, lon, rfl, hl, rfl⟩

theorem geoEntries_of_noMatch (env : Env) (loc : String)
    (hgeo : env.geocode loc = GeoOutcome.noMatch) : geoEntries env loc = [] := by
  unfold geoEntries
  by_cases hl : loc = ""
  · rw [if_pos hl]
  · rw [if_neg hl, show get_coordinates env loc = none from by
      unfold get_coordinates; rw [hgeo]]

theorem get_coordinates_found (env : Env) (loc : String) (lat lon : ℚ)
    (h : env.geocode loc = GeoOutcome.found lat lon) :
    get_coordinates env loc = some (lat, lon) := by
  unfold get_coordinates
  rw [h]

theorem geoEntries_of_found (env : Env) (loc : String) (lat lon : ℚ)
    (hloc : loc ≠ "") (h : env.geocode loc = GeoOutcome.found lat lon) :
    geoEntries env loc =
      [("Latitude", PyVal.strV (formatFix4 lat)),
       ("Longitude", PyVal.strV (formatFix4 lon)),
       ("Google Maps Link",
        PyVal.strV ("https://maps.google.com/maps?q=" ++ decStrQ lat ++ "," ++ decStrQ lon))] := by
  unfold geoEntries
  rw [if_neg hloc, get_coordinates_found env loc lat lon h]

theorem dictGet_record_geo (env : Env) (n : Nat) (ce : Record) (k : String)
    (hce : countryEntries env (env.region_code_for_number n) = Except.ok ce)
    (hb : dictGet (baseInfo env n) k = none)
    (ht : k ≠ "Current Local Time")
    (hc : k ∉ countryKeys)
    (hw : dictGet [waEntry env n] k = none) :
    dictGet (baseInfo env n ++ (tzEntries env n ++ (ce ++
      (geoEntries env (env.description_for_number n) ++ [waEntry env n])))) k =
    dictGet (geoEntries env (env.description_for_number n)) k := by
  rw [dictGet_append_none _ _ _ hb,
      dictGet_append_none _ _ _ (dictGet_tzEntries_ne env n k ht),
      dictGet_append_none _ _ _ (dictGet_countryEntries_ne env _ ce k hce hc)]
  cases hm : dictGet (geoEntries env (env.description_for_number n)) k with
  | some v => rw [dictGet_append_some _ _ _ _ hm]
  | none =>
    rw [dictGet_append_none _ _ _ hm]
    exact hw

theorem pyRemoveAll_plus (rest : String) (h : ∀ c ∈ rest.data, c ≠ '+') :
    pyRemoveAll ("+" ++ rest) '+' = rest := by
  unfold pyRemoveAll
  rw [show ("+" ++ rest).data = '+' :: rest.data from rfl]
  rw [List.filter_cons]
  have hhead : (('+' : Char) != '+') = false := by decide
  rw [hhead]
  simp only [Bool.false_eq_true, if_false]
  rw [List.filter_eq_self.mpr (fun c hc => by simpa [bne_iff_ne] using h c hc)]

/-- C2: every input that fails to parse, or parses but fails the library's
validity check, makes the pipeline return an error string; the presentation
layer renders an error panel for it and writes no artifact file. -/
theorem claim2_terminal_failures (env : Env) (s : String)
    (h : env.parse s = none ∨ ∃ n, env.parse s = some n ∧ env.is_valid_number n = false) :
    ∃ msg, get_phone_info env s = Except.error msg ∧
      display_results (get_phone_info env s) = DisplayResult.errorPanel msg ∧
      displayFiles (display_results (get_phone_info env s)) = [] := by
  rcases h with hp | ⟨n, hp, hv⟩
  · have he : get_phone_info env s =
        Except.error ("❌ Error: Failed to parse \x27" ++ s ++ "\x27. Please check the format.") := by
      unfold get_phone_info
      rw [hp]
    exact ⟨_, he, by rw [he]; rfl, by rw [he]; rfl⟩
  · have he : get_phone_info env s = Except.error "❌ Error: Invalid phone number format." := by
      unfold get_phone_info
      rw [hp]
      simp [hv]
    exact ⟨_, he, by rw [he]; rfl, by rw [he]; rfl⟩

/-- C2 witness: the end-to-end scenario input "not-a-number" raises a parse
failure, the error panel is shown and no files are written. -/
theorem claim2_witness :
    ∃ msg, get_phone_info usEnv "not-a-number" = Except.error msg ∧
      display_results (get_phone_info usEnv "not-a-number") = DisplayResult.errorPanel msg ∧
      displayFiles (display_results (get_phone_info usEnv "not-a-number")) = [] :=
  claim2_terminal_failures usEnv "not-a-number" (Or.inl rfl)

/-- C4: for every valid number that yields a record, "Current Local Time" is
present iff the timezone list is nonempty; its value is computed from the
first identifier only, and an unresolvable first identifier stores the
literal "Invalid timezone data." instead of crashing. -/
theorem claim4_local_time (env : Env) (s : String) (n : Nat) (r : Record)
    (hp : env.parse s = some n) (hv : env.is_valid_number n = true)
    (hr : get_phone_info env s = Except.ok r) :
    ((dictGet r "Current Local Time").isSome ↔ env.time_zones_for_number n ≠ []) ∧
    (∀ tz rest t, env.time_zones_for_number n = tz :: rest →
      env.local_time_str tz = some t →
      dictGet r "Current Local Time" = some (PyVal.strV t)) ∧
    (∀ tz rest, env.time_zones_for_number n = tz :: rest →
      env.local_time_str tz = none →
      dictGet r "Current Local Time" = some (PyVal.strV "Invalid timezone data.")) := by
  obtain ⟨n2, ce, hp2, hv2, hce, hsh⟩ := get_phone_info_ok_inv env s r hr
  have hnn : n2 = n := by
    have h2 := hp2.symm.trans hp
    injection h2
  subst hnn
  subst hsh
  have hred : dictGet (baseInfo env n2 ++ (tzEntries env n2 ++ (ce ++
      (geoEntries env (env.description_for_number n2) ++ [waEntry env n2]))))
      "Current Local Time" = dictGet (tzEntries env n2) "Current Local Time" := by
    rw [dictGet_append_none _ _ _ (rfl :
      dictGet (baseInfo env n2) "Current Local Time" = none)]
    cases hm : dictGet (tzEntries env n2) "Current Local Time" with
    | some v => rw [dictGet_append_some _ _ _ _ hm]
    | none =>
      rw [dictGet_append_none _ _ _ hm,
          dictGet_append_none _ _ _
            (dictGet_countryEntries_ne env _ ce _ hce (by decide)),
          dictGet_append_none _ _ _
            (dictGet_geoEntries_ne env _ _ (by decide) (by decide) (by decide))]
      rfl
  rw [hred]
  refine ⟨?_, ?_, ?_⟩
  · cases htz : env.time_zones_for_number n2 with
    | nil => simp [tzEntries, htz, dictGet]
    | cons tz rest =>
      cases hl : env.local_time_str tz <;> simp [tzEntries, htz, hl, dictGet]
  · intro tz rest t htz hl
    simp [tzEntries, htz, hl, dictGet]
  · intro tz rest htz hl
    simp [tzEntries, htz, hl, dictGet]

/-- C4 witness: in the concrete environment the timezone list is
["America/Los_Angeles"] and the key is present with the resolved time. -/
theorem claim4_witness :
    ((dictGet usRecord "Current Local Time").isSome ↔ usEnv.time_zones_for_number 1 ≠ []) ∧
    (∀ tz rest t, usEnv.time_zones_for_number 1 = tz :: rest →
      usEnv.local_time_str tz = some t →
      dictGet usRecord "Current Local Time" = some (PyVal.strV t)) ∧
    (∀ tz rest, usEnv.time_zones_for_number 1 = tz :: rest →
      usEnv.local_time_str tz = none →
      dictGet usRecord "Current Local Time" = some (PyVal.strV "Invalid timezone data.")) :=
  claim4_local_time usEnv "+14155552671" 1 usRecord rfl rfl usRun

/-- C6: the record's "Number Type" value is the static-table lookup of the
library's category value with default "Other"; the table maps exactly the
five listed categories, and every category outside the table yields
"Other". -/
theorem claim6_number_type (env : Env) (s : String) (n : Nat) (r : Record)
    (hp : env.parse s = some n) (hv : env.is_valid_number n = true)
    (hr : get_phone_info env s = Except.ok r) :
    dictGet r "Number Type" =
      some (PyVal.strV (mapGetD NUMBER_TYPE_MAP (env.number_type n) "Other")) ∧
    mapGetD NUMBER_TYPE_MAP PhoneNumberType.FIXED_LINE "Other" = "Fixed Line" ∧
    mapGetD NUMBER_TYPE_MAP PhoneNumberType.MOBILE "Other" = "Mobile" ∧
    mapGetD NUMBER_TYPE_MAP PhoneNumberType.TOLL_FREE "Other" = "Toll-Free" ∧
    mapGetD NUMBER_TYPE_MAP PhoneNumberType.PREMIUM_RATE "Other" = "Premium Rate" ∧
    mapGetD NUMBER_TYPE_MAP PhoneNumberType.UNKNOWN "Other" = "Unknown" ∧
    ∀ t : PhoneNumberType, t ∉ NUMBER_TYPE_MAP.map Prod.fst →
      mapGetD NUMBER_TYPE_MAP t "Other" = "Other" := by
  obtain ⟨n2, ce, hp2, hv2, hce, hsh⟩ := get_phone_info_ok_inv env s r hr
  have hnn : n2 = n := by
    have h2 := hp2.symm.trans hp
    injection h2
  subst hnn
  subst hsh
  refine ⟨?_, rfl, rfl, rfl, rfl, rfl, ?_⟩
  · exact dictGet_append_some _ _ _ _ (rfl :
      dictGet (baseInfo env n2) "Number Type" =
        some (PyVal.strV (mapGetD NUMBER_TYPE_MAP (env.number_type n2) "Other")))
  · intro t ht
    cases t <;> first
      | rfl
      | exact absurd (by simp [NUMBER_TYPE_MAP]) ht

/-- C6 witness: at the concrete US mobile number the category is MOBILE and
the record shows "Mobile". -/
theorem claim6_witness :
    dictGet usRecord "Number Type" =
      some (PyVal.strV (mapGetD NUMBER_TYPE_MAP (usEnv.number_type 1) "Other")) ∧
    mapGetD NUMBER_TYPE_MAP PhoneNumberType.FIXED_LINE "Other" = "Fixed Line" ∧
    mapGetD NUMBER_TYPE_MAP PhoneNumberType.MOBILE "Other" = "Mobile" ∧
    mapGetD NUMBER_TYPE_MAP PhoneNumberType.TOLL_FREE "Other" = "Toll-Free" ∧
    mapGetD NUMBER_TYPE_MAP PhoneNumberType.PREMIUM_RATE "Other" = "Premium Rate" ∧
    mapGetD NUMBER_TYPE_MAP PhoneNumberType.UNKNOWN "Other" = "Unknown" ∧
    ∀ t : PhoneNumberType, t ∉ NUMBER_TYPE_MAP.map Prod.fst →
      mapGetD NUMBER_TYPE_MAP t "Other" = "Other" :=
  claim6_number_type usEnv "+14155552671" 1 usRecord rfl rfl usRun

/-- C7: for every valid number whose E.164 form is a "+" followed by a
plus-free suffix, the record's "WhatsApp Link" is the fixed template
concatenated with that suffix. -/
theorem claim7_whatsapp_link (env : Env) (s : String) (n : Nat) (r : Record) (rest : String)
    (hp : env.parse s = some n) (hv : env.is_valid_number n = true)
    (hr : get_phone_info env s = Except.ok r)
    (he : env.format_E164 n = "+" ++ rest)
    (hplus : ∀ c ∈ rest.data, c ≠ '+') :
    dictGet r "WhatsApp Link" = some (PyVal.strV ("https://wa.me/" ++ rest)) := by
  obtain ⟨n2, ce, hp2, hv2, hce, hsh⟩ := get_phone_info_ok_inv env s r hr
  have hnn : n2 = n := by
    have h2 := hp2.symm.trans hp
    injection h2
  subst hnn
  subst hsh
  rw [dictGet_append_none _ _ _ (rfl :
        dictGet (baseInfo env n2) "WhatsApp Link" = none),
      dictGet_append_none _ _ _ (dictGet_tzEntries_ne env n2 _ (by decide)),
      dictGet_append_none _ _ _ (dictGet_countryEntries_ne env _ ce _ hce (by decide)),
      dictGet_append_none _ _ _ (dictGet_geoEntries_ne env _ _ (by decide) (by decide) (by decide))]
  show some (PyVal.strV ("https://wa.me/" ++ pyRemoveAll (env.format_E164 n2) '+')) = _
  rw [he, pyRemoveAll_plus rest hplus]

/-- C7 witness: the end-to-end scenario; the record's WhatsApp link for
"+14155552671" is "https://wa.me/14155552671". -/
theorem claim7_witness :
    dictGet usRecord "WhatsApp Link" =
      some (PyVal.strV ("https://wa.me/" ++ "14155552671")) :=
  claim7_whatsapp_link usEnv "+14155552671" 1 usRecord "14155552671" rfl rfl usRun rfl
    (by decide)

/-- C8: every successful analysis yields a record containing the seven core
keys, whatever the timezone, country and geocoding derivations did, and the
"WhatsApp Link" entry is last in insertion order. -/
theorem claim8_core_keys (env : Env) (s : String) (r : Record)
    (hr : get_phone_info env s = Except.ok r) :
    (dictGet r "E.164 Format").isSome ∧
    (dictGet r "International Format").isSome ∧
    (dictGet r "National Format").isSome ∧
    (dictGet r "Number Type").isSome ∧
    (dictGet r "Area Code Location").isSome ∧
    (dictGet r "Mobile Carrier").isSome ∧
    (dictGet r "WhatsApp Link").isSome ∧
    ∃ v, r.getLast? = some ("WhatsApp Link", v) := by
  obtain ⟨n, ce, hp, hv, hce, rfl⟩ := get_phone_info_ok_inv env s r hr
  refine ⟨?_, ?_, ?_, ?_, ?_, ?_, ?_, ?_⟩
  · rw [dictGet_append_some _ _ _ _ (rfl : dictGet (baseInfo env n) "E.164 Format" =
      some (PyVal.strV (env.format_E164 n)))]
    rfl
  · rw [dictGet_append_some _ _ _ _ (rfl : dictGet (baseInfo env n) "International Format" =
      some (PyVal.strV (env.format_international n)))]
    rfl
  · rw [dictGet_append_some _ _ _ _ (rfl : dictGet (baseInfo env n) "National Format" =
      some (PyVal.strV (pyOr (env.format_national n) "N/A")))]
    rfl
  · rw [dictGet_append_some _ _ _ _ (rfl : dictGet (baseInfo env n) "Number Type" =
      some (PyVal.strV (mapGetD NUMBER_TYPE_MAP (env.number_type n) "Other")))]
    rfl
  · rw [dictGet_append_some _ _ _ _ (rfl : dictGet (baseInfo env n) "Area Code Location" =
      some (PyVal.strV (pyOr (env.description_for_number n) "N/A")))]
    rfl
  · rw [dictGet_append_some _ _ _ _ (rfl : dictGet (baseInfo env n) "Mobile Carrier" =
      some (PyVal.strV (pyOr (env.name_for_number n) "N/A")))]
    rfl
  · rw [dictGet_append_none _ _ _ (rfl : dictGet (baseInfo env n) "WhatsApp Link" = none),
        dictGet_append_none _ _ _ (dictGet_tzEntries_ne env n _ (by decide)),
        dictGet_append_none _ _ _ (dictGet_countryEntries_ne env _ ce _ hce (by decide)),
        dictGet_append_none _ _ _
          (dictGet_geoEntries_ne env _ _ (by decide) (by decide) (by decide))]
    rfl
  · refine ⟨PyVal.strV ("https://wa.me/" ++ pyRemoveAll (env.format_E164 n) '+'), ?_⟩
    rw [List.getLast?_append_of_ne_nil _ (by simp),
        List.getLast?_append_of_ne_nil _ (by simp),
        List.getLast?_append_of_ne_nil _ (by simp),
        List.getLast?_append_of_ne_nil _ (by simp)]
    rfl

/-- C8 witness: the concrete US record has all seven keys and ends with the
WhatsApp entry. -/
theorem claim8_witness :
    (dictGet usRecord "E.164 Format").isSome ∧
    (dictGet usRecord "International Format").isSome ∧
    (dictGet usRecord "National Format").isSome ∧
    (dictGet usRecord "Number Type").isSome ∧
    (dictGet usRecord "Area Code Location").isSome ∧
    (dictGet usRecord "Mobile Carrier").isSome ∧
    (dictGet usRecord "WhatsApp Link").isSome ∧
    ∃ v, usRecord.getLast? = some ("WhatsApp Link", v) :=
  claim8_core_keys usEnv "+14155552671" usRecord usRun

/-- C9: in every record the analysis produces, the three geolocation keys
are all present or all absent. -/
theorem claim9_geo_keys_together (env : Env) (s : String) (r : Record)
    (hr : get_phone_info env s = Except.ok r) :
    ((dictGet r "Latitude").isSome ∧ (dictGet r "Longitude").isSome ∧
      (dictGet r "Google Maps Link").isSome) ∨
    (dictGet r "Latitude" = none ∧ dictGet r "Longitude" = none ∧
      dictGet r "Google Maps Link" = none) := by
  obtain ⟨n, ce, hp, hv, hce, rfl⟩ := get_phone_info_ok_inv env s r hr
  have hL := dictGet_record_geo env n ce "Latitude" hce rfl (by decide) (by decide) rfl
  have hLo := dictGet_record_geo env n ce "Longitude" hce rfl (by decide) (by decide) rfl
  have hG := dictGet_record_geo env n ce "Google Maps Link" hce rfl (by decide) (by decide) rfl
  rcases geoEntries_cases env (env.description_for_number n) with hnil | ⟨lat, lon, hco, hloc, hlist⟩
  · right
    rw [hL, hLo, hG, hnil]
    exact ⟨rfl, rfl, rfl⟩
  · left
    rw [hL, hLo, hG, hlist]
    exact ⟨rfl, rfl, rfl⟩

/-- C9 witness: in the concrete run the geocoder succeeds and all three
keys are present. -/
theorem claim9_witness :
    ((dictGet usRecord "Latitude").isSome ∧ (dictGet usRecord "Longitude").isSome ∧
      (dictGet usRecord "Google Maps Link").isSome) ∨
    (dictGet usRecord "Latitude" = none ∧ dictGet usRecord "Longitude" = none ∧
      dictGet usRecord "Google Maps Link" = none) :=
  claim9_geo_keys_together usEnv "+14155552671" usRecord usRun

/-- C10: whenever Latitude is present, the Latitude/Longitude values are
the geocoded coordinates formatted to exactly four fraction digits, the
maps link interpolates the unrounded coordinates, and the map generator
centres the map on the values re-parsed from the four-digit strings, i.e.
on the rounded coordinate pair. -/
theorem claim10_rounded_coordinates (env : Env) (s : String) (r : Record) (ls : String)
    (hr : get_phone_info env s = Except.ok r)
    (hlat : dictGet r "Latitude" = some (PyVal.strV ls)) :
    ∃ n lat lon,
      env.parse s = some n ∧
      get_coordinates env (env.description_for_number n) = some (lat, lon) ∧
      ls = formatFix4 lat ∧
      dictGet r "Latitude" = some (PyVal.strV (formatFix4 lat)) ∧
      dictGet r "Longitude" = some (PyVal.strV (formatFix4 lon)) ∧
      dictGet r "Google Maps Link" = some (PyVal.strV
        ("https://maps.google.com/maps?q=" ++ decStrQ lat ++ "," ++ decStrQ lon)) ∧
      ∃ w, create_location_map r = Except.ok (some w) ∧
        w.center = (roundQ4 lat, roundQ4 lon) := by
  obtain ⟨n, ce, hp, hv, hce, hsh⟩ := get_phone_info_ok_inv env s r hr
  subst hsh
  have hL := dictGet_record_geo env n ce "Latitude" hce rfl (by decide) (by decide) rfl
  have hLo := dictGet_record_geo env n ce "Longitude" hce rfl (by decide) (by decide) rfl
  have hG := dictGet_record_geo env n ce "Google Maps Link" hce rfl (by decide) (by decide) rfl
  rcases geoEntries_cases env (env.description_for_number n) with hnil | ⟨lat, lon, hco, hloc, hlist⟩
  · rw [hL, hnil] at hlat
    simp [dictGet] at hlat
  · have hLat : dictGet (baseInfo env n ++ (tzEntries env n ++ (ce ++
        (geoEntries env (env.description_for_number n) ++ [waEntry env n])))) "Latitude" =
        some (PyVal.strV (formatFix4 lat)) := by
      rw [hL, hlist]
      rfl
    have hLon : dictGet (baseInfo env n ++ (tzEntries env n ++ (ce ++
        (geoEntries env (env.description_for_number n) ++ [waEntry env n])))) "Longitude" =
        some (PyVal.strV (formatFix4 lon)) := by
      rw [hLo, hlist]
      rfl
    have hGML : dictGet (baseInfo env n ++ (tzEntries env n ++ (ce ++
        (geoEntries env (env.description_for_number n) ++ [waEntry env n])))) "Google Maps Link" =
        some (PyVal.strV ("https://maps.google.com/maps?q=" ++ decStrQ lat ++ "," ++ decStrQ lon)) := by
      rw [hG, hlist]
      rfl
    have hls : ls = formatFix4 lat := by
      have h2 := hlat.symm.trans hLat
      injection h2 with h3
      injection h3
    refine ⟨n, lat, lon, hp, hco, hls, hLat, hLon, hGML, ?_⟩
    unfold create_location_map
    rw [hLat, hLon]
    simp only [pyFloatVal, parseDec_formatFix4]
    exact ⟨_, rfl, rfl⟩

/-- C10 witness: the geocoder returns 37.77493, the record shows
"37.7749", and the map centre 37.7749 differs from the exact geocoded
coordinate. -/
theorem claim10_witness :
    (∃ n lat lon,
      usEnv.parse "+14155552671" = some n ∧
      get_coordinates usEnv (usEnv.description_for_number n) = some (lat, lon) ∧
      "37.7749" = formatFix4 lat ∧
      dictGet usRecord "Latitude" = some (PyVal.strV (formatFix4 lat)) ∧
      dictGet usRecord "Longitude" = some (PyVal.strV (formatFix4 lon)) ∧
      dictGet usRecord "Google Maps Link" = some (PyVal.strV
        ("https://maps.google.com/maps?q=" ++ decStrQ lat ++ "," ++ decStrQ lon)) ∧
      ∃ w, create_location_map usRecord = Except.ok (some w) ∧
        w.center = (roundQ4 lat, roundQ4 lon)) ∧
    roundQ4 (3777493 / 100000 : ℚ) ≠ (3777493 / 100000 : ℚ) := by
  refine ⟨claim10_rounded_coordinates usEnv "+14155552671" usRecord "37.7749" usRun rfl, ?_⟩
  unfold roundQ4
  rw [rhe_usLat]
  norm_num

theorem countryFallback_core (env env2 : Env) (s : String) (n : Nat) (ceF ceS : Record)
    (hp : env.parse s = some n) (hv : env.is_valid_number n = true)
    (hceF : countryEntries env (env.region_code_for_number n) = Except.ok ceF)
    (hp2 : env2.parse s = some n) (hv2 : env2.is_valid_number n = true)
    (hceS : countryEntries env2 (env2.region_code_for_number n) = Except.ok ceS)
    (hci : dictGet ceF "Country Info" = some (PyVal.strV "Could not retrieve."))
    (houtF : List.filter (fun e => !(countryKeys.contains e.1)) ceF = [])
    (houtS : List.filter (fun e => !(countryKeys.contains e.1)) ceS = [])
    (hb : baseInfo env2 n = baseInfo env n)
    (ht : tzEntries env2 n = tzEntries env n)
    (hg : geoEntries env2 (env2.description_for_number n) =
      geoEntries env (env.description_for_number n))
    (hw : waEntry env2 n = waEntry env n) :
    ∃ r r2, get_phone_info env s = Except.ok r ∧
      get_phone_info env2 s = Except.ok r2 ∧
      dictGet r "Country Info" = some (PyVal.strV "Could not retrieve.") ∧
      outsideCountry r = outsideCountry r2 := by
  refine ⟨_, _, get_phone_info_ok_mk env s n ceF hp hv hceF,
    get_phone_info_ok_mk env2 s n ceS hp2 hv2 hceS, ?_, ?_⟩
  · rw [dictGet_append_none _ _ _ (rfl : dictGet (baseInfo env n) "Country Info" = none),
        dictGet_append_none _ _ _ (dictGet_tzEntries_ne env n _ (by decide)),
        dictGet_append_some _ _ _ _ hci]
  · rw [hb, ht, hg, hw]
    unfold outsideCountry
    simp only [List.filter_append]
    rw [houtF, houtS]

/-- C1 (amended): a KeyError from the country lookup or an IndexError from
an empty currency list is caught: the aggregation still returns a record,
the record contains the fallback entry "Country Info" = "Could not
retrieve.", and every entry outside the country-metadata group equals the
corresponding entry of a run whose country lookup succeeds. -/
theorem claim1_country_fallback (env : Env) (s : String) (n : Nat)
    (f : String → Option CountryData)
    (hp : env.parse s = some n) (hv : env.is_valid_number n = true)
    (hcode : env.region_code_for_number n ≠ "")
    (hfail : env.country_info (env.region_code_for_number n) = none ∨
      ∃ cd, env.country_info (env.region_code_for_number n) = some cd ∧
        cd.currencies = some [])
    (hsucc : ∃ cd c cs, f (env.region_code_for_number n) = some cd ∧
      cd.currencies = some (c :: cs)) :
    ∃ r r2, get_phone_info env s = Except.ok r ∧
      get_phone_info { env with country_info := f } s = Except.ok r2 ∧
      dictGet r "Country Info" = some (PyVal.strV "Could not retrieve.") ∧
      outsideCountry r = outsideCountry r2 := by
  obtain ⟨cd2, c, cs, hf2, hcur⟩ := hsucc
  obtain ⟨nm2, cap2, cur2, reg2, bor2⟩ := cd2
  change cur2 = some (c :: cs) at hcur
  subst hcur
  have hceS : countryEntries { env with country_info := f }
      (env.region_code_for_number n) = Except.ok
      [("Country", PyVal.strV (pyOptStr nm2 ++ " (" ++ env.region_code_for_number n ++ ")")),
       ("Capital City", optV cap2),
       ("Currency", PyVal.strV c),
       ("Continent / Region", optV reg2),
       ("Bordering Countries", PyVal.strV (bordersStr bor2))] :=
    countryEntries_of_currency { env with country_info := f } _ nm2 cap2 reg2 c cs bor2 hcode hf2
  rcases hfail with hnone | ⟨cd, hcd, hc0⟩
  · exact countryFallback_core env { env with country_info := f } s n _ _ hp hv
      (countryEntries_of_keyError env _ hcode hnone) hp hv hceS rfl rfl rfl rfl rfl rfl rfl
  · obtain ⟨nm, cap, cur, reg, bor⟩ := cd
    change cur = some [] at hc0
    subst hc0
    exact countryFallback_core env { env with country_info := f } s n _ _ hp hv
      (countryEntries_of_emptyCurrency env _ nm cap reg bor hcode hcd) hp hv hceS rfl rfl rfl rfl rfl rfl rfl

/-- C1 counterexample: with a valid parsed number, a non-empty region code
and a country dictionary lacking the currencies key — a lookup failure by
missing key while deriving the currency — the aggregation does not return
a record: subscripting None raises TypeError, which the inner
KeyError/IndexError handler does not catch, and the whole analysis returns
the unexpected-error string. -/
theorem claim1_counterexample :
    envMissingCurrency.parse "+14155552671" = some 1 ∧
    envMissingCurrency.is_valid_number 1 = true ∧
    envMissingCurrency.region_code_for_number 1 = "US" ∧
    envMissingCurrency.country_info "US" = some cdMissingCurrencyKey ∧
    cdMissingCurrencyKey.currencies = none ∧
    get_phone_info envMissingCurrency "+14155552671" =
      Except.error "❌ An unexpected error occurred: \x27NoneType\x27 object is not subscriptable" :=
  ⟨rfl, rfl, rfl, rfl, rfl, rfl⟩

/-- C1 witness: an empty currency list (IndexError) degrades to the
fallback entry while the rest of the record matches the successful run. -/
theorem claim1_witness :
    ∃ r r2, get_phone_info envEmptyCurrency "+14155552671" = Except.ok r ∧
      get_phone_info { envEmptyCurrency with country_info := usEnv.country_info }
        "+14155552671" = Except.ok r2 ∧
      dictGet r "Country Info" = some (PyVal.strV "Could not retrieve.") ∧
      outsideCountry r = outsideCountry r2 :=
  claim1_country_fallback envEmptyCurrency "+14155552671" 1 usEnv.country_info rfl rfl
    (by decide) (Or.inr ⟨cdEmptyCurrency, rfl, rfl⟩) ⟨usCountryData, "USD", [], rfl, rfl⟩

theorem geoFallback_core (env env2 : Env) (s : String) (n : Nat) (ce ge2 : Record)
    (hp2 : env2.parse s = some n) (hv2 : env2.is_valid_number n = true)
    (hce2 : countryEntries env2 (env2.region_code_for_number n) = Except.ok ce)
    (hge : geoEntries env (env.description_for_number n) = [])
    (hge2 : geoEntries env2 (env2.description_for_number n) = ge2)
    (hout2 : List.filter (fun e => !(geoKeys.contains e.1)) ge2 = [])
    (hb : baseInfo env2 n = baseInfo env n)
    (ht : tzEntries env2 n = tzEntries env n)
    (hw : waEntry env2 n = waEntry env n) :
    ∃ r2, get_phone_info env2 s = Except.ok r2 ∧
      outsideGeo (baseInfo env n ++ (tzEntries env n ++ (ce ++
        (geoEntries env (env.description_for_number n) ++ [waEntry env n])))) =
        outsideGeo r2 := by
  refine ⟨_, get_phone_info_ok_mk env2 s n ce hp2 hv2 hce2, ?_⟩
  rw [hb, ht, hw, hge2, hge]
  unfold outsideGeo
  simp only [List.filter_append]
  rw [hout2]
  rfl

/-- C3: for a valid number with nonempty area description whose geocoding
finds no match, the record lacks all three geolocation keys, the map
generator writes nothing, and the rest of the record equals that of a run
whose geocoding succeeds. -/
theorem claim3_geocoder_no_match (env : Env) (s : String) (n : Nat) (r : Record)
    (f : String → GeoOutcome) (lat lon : ℚ)
    (hp : env.parse s = some n) (hv : env.is_valid_number n = true)
    (hr : get_phone_info env s = Except.ok r)
    (hloc : env.description_for_number n ≠ "")
    (hgeo : env.geocode (env.description_for_number n) = GeoOutcome.noMatch)
    (hf : f (env.description_for_number n) = GeoOutcome.found lat lon) :
    dictGet r "Latitude" = none ∧ dictGet r "Longitude" = none ∧
    dictGet r "Google Maps Link" = none ∧
    create_location_map r = Except.ok none ∧
    ∃ r2, get_phone_info { env with geocode := f } s = Except.ok r2 ∧
      outsideGeo r = outsideGeo r2 := by
  obtain ⟨n2, ce, hp2, hv2, hce, hsh⟩ := get_phone_info_ok_inv env s r hr
  have hnn : n2 = n := by
    have h2 := hp2.symm.trans hp
    injection h2
  subst hnn
  subst hsh
  have hge : geoEntries env (env.description_for_number n2) = [] :=
    geoEntries_of_noMatch env _ hgeo
  have hL : dictGet (baseInfo env n2 ++ (tzEntries env n2 ++ (ce ++
      (geoEntries env (env.description_for_number n2) ++ [waEntry env n2])))) "Latitude" = none := by
    rw [dictGet_record_geo env n2 ce "Latitude" hce rfl (by decide) (by decide) rfl, hge]
    rfl
  have hLo : dictGet (baseInfo env n2 ++ (tzEntries env n2 ++ (ce ++
      (geoEntries env (env.description_for_number n2) ++ [waEntry env n2])))) "Longitude" = none := by
    rw [dictGet_record_geo env n2 ce "Longitude" hce rfl (by decide) (by decide) rfl, hge]
    rfl
  have hG : dictGet (baseInfo env n2 ++ (tzEntries env n2 ++ (ce ++
      (geoEntries env (env.description_for_number n2) ++ [waEntry env n2])))) "Google Maps Link" = none := by
    rw [dictGet_record_geo env n2 ce "Google Maps Link" hce rfl (by decide) (by decide) rfl, hge]
    rfl
  refine ⟨hL, hLo, hG, ?_, ?_⟩
  · unfold create_location_map
    rw [hL]
  · exact geoFallback_core env { env with geocode := f } s n2 ce _ hp hv hce hge
      (geoEntries_of_found { env with geocode := f } (env.description_for_number n2) lat lon
        hloc hf)
      rfl rfl rfl rfl

/-- C3 witness: the no-match environment produces the record without the
three geolocation keys, the map generator writes nothing, and the rest
agrees with the successful geocoding run. -/
theorem claim3_witness :
    dictGet usRecordNoGeo "Latitude" = none ∧ dictGet usRecordNoGeo "Longitude" = none ∧
    dictGet usRecordNoGeo "Google Maps Link" = none ∧
    create_location_map usRecordNoGeo = Except.ok none ∧
    ∃ r2, get_phone_info { envNoGeo with geocode := usEnv.geocode } "+14155552671" =
        Except.ok r2 ∧
      outsideGeo usRecordNoGeo = outsideGeo r2 :=
  claim3_geocoder_no_match envNoGeo "+14155552671" 1 usRecordNoGeo usEnv.geocode
    (3777493 / 100000) (-12241942 / 100000) rfl rfl usRunNoGeo (by decide) rfl rfl

/-- C5 (amended): invoking both generators on a record whose "E.164
Format" value is a nonempty string e and which contains neither Latitude
nor Longitude writes exactly one file, contact_<e>.png, and the map
generator writes none. -/
theorem claim5_minimal_record (r : Record) (e : String)
    (he : dictGet r "E.164 Format" = some (PyVal.strV e)) (hne : e ≠ "")
    (hlat : dictGet r "Latitude" = none) (hlon : dictGet r "Longitude" = none) :
    create_qr_code r = some
      { filename := "contact_" ++ e ++ ".png",
        content := "BEGIN:VCARD\nVERSION:3.0\nFN:" ++ e ++ "\nTEL;TYPE=CELL:" ++ e ++ "\nEND:VCARD" } ∧
    create_location_map r = Except.ok none ∧
    generatedFiles r = ["contact_" ++ e ++ ".png"] := by
  have hqr : create_qr_code r = some
      { filename := "contact_" ++ e ++ ".png",
        content := "BEGIN:VCARD\nVERSION:3.0\nFN:" ++ e ++ "\nTEL;TYPE=CELL:" ++ e ++ "\nEND:VCARD" } := by
    unfold create_qr_code
    rw [he]
    simp [hne]
  have hmap : create_location_map r = Except.ok none := by
    unfold create_location_map
    rw [hlat]
  refine ⟨hqr, hmap, ?_⟩
  unfold generatedFiles
  rw [hmap, hqr]
  rfl

/-- C5 counterexample: a record whose "E.164 Format" value is the empty
string satisfies the claim's premises, yet zero files are written, because
the QR generator's Python truthiness precondition `not e164` treats the
empty string like an absent key. -/
theorem claim5_counterexample :
    dictGet emptyE164Record "E.164 Format" = some (PyVal.strV "") ∧
    dictGet emptyE164Record "Latitude" = none ∧
    dictGet emptyE164Record "Longitude" = none ∧
    create_qr_code emptyE164Record = none ∧
    create_location_map emptyE164Record = Except.ok none ∧
    generatedFiles emptyE164Record = [] :=
  ⟨rfl, rfl, rfl, rfl, rfl, rfl⟩

/-- C5 witness: on the minimal record with E.164 "+14155552671" exactly
the QR file is written. -/
theorem claim5_witness :
    create_qr_code minimalRecord = some
      { filename := "contact_+14155552671.png",
        content := "BEGIN:VCARD\nVERSION:3.0\nFN:+14155552671\nTEL;TYPE=CELL:+14155552671\nEND:VCARD" } ∧
    create_location_map minimalRecord = Except.ok none ∧
    generatedFiles minimalRecord = ["contact_+14155552671.png"] :=
  claim5_minimal_record minimalRecord "+14155552671" rfl (by decide) rfl rfl

end PhoneInspector
